import Mathlib

/-!
# esp32_home_auto: configuration header and the controller it configures

The repository's source is `esp32_home_auto/config.example.h`: Wi-Fi
credentials, the MQTT broker address and port, and ten MQTT topic strings.
Part 1 embeds the header: every `#define` becomes a constant of the same
name, and the file itself becomes the list of its comment-headed sections.
Part 2 models the device controller that consumes the header; the
controller's code is not part of the header, so its definitions follow the
specification and say so.  Part 3 holds the theorems.
-/

namespace Esp32HomeAuto

/-! ## Part 1: config.example.h -/

/-- Header line 5: `#define WIFI_SSID "YourWiFiSSID"`. -/
def WIFI_SSID : String := "YourWiFiSSID"

/-- Header line 6: `#define WIFI_PASS "YourWiFiPassword"`. -/
def WIFI_PASS : String := "YourWiFiPassword"

/-- Header line 9: `#define MQTT_BROKER "test.mosquitto.org"`. -/
def MQTT_BROKER : String := "test.mosquitto.org"

/-- Header line 10: `#define MQTT_PORT 1883` (a C `int` literal). -/
def MQTT_PORT : Int := 1883

/-- Header line 13. -/
def MQTT_LIGHT_CMD : String := "home/room1/light/cmd"

/-- Header line 14. -/
def MQTT_FAN_CMD : String := "home/room1/fan/cmd"

/-- Header line 15. -/
def MQTT_ALARM_CMD : String := "home/room1/alarm/cmd"

/-- Header line 16. -/
def MQTT_LIGHT_STATE : String := "home/room1/light/state"

/-- Header line 17. -/
def MQTT_FAN_STATE : String := "home/room1/fan/state"

/-- Header line 18. -/
def MQTT_ALARM_STATE : String := "home/room1/alarm/state"

/-- Header line 19. -/
def MQTT_LIGHT_MODE : String := "home/room1/light/mode"

/-- Header line 20. -/
def MQTT_FAN_MODE : String := "home/room1/fan/mode"

/-- Header line 21. -/
def MQTT_ALARM_MODE : String := "home/room1/alarm/mode"

/-- Header line 22. -/
def MQTT_TELEMETRY : String := "home/room1/telemetry"

/-- The replacement text of a `#define`: a string literal or an integer
literal, the only two forms the header uses. -/
inductive MacroValue where
  | str (s : String)
  | int (n : Int)
  deriving DecidableEq, Repr

/-- One `#define NAME value` line. -/
structure Define where
  name : String
  value : MacroValue
  deriving DecidableEq, Repr

/-- A run of `#define` lines under one `// heading` comment. -/
structure HeaderSection where
  heading : String
  defines : List Define
  deriving DecidableEq, Repr

/-- The whole of `config.example.h`, in file order: the three commented
sections (`// Wi‑Fi`, `// MQTT`, `// Topics`) and their `#define` lines. -/
def config_example_h : List HeaderSection :=
  [ { heading := "Wi‑Fi",
      defines := [ ⟨"WIFI_SSID", .str WIFI_SSID⟩,
                   ⟨"WIFI_PASS", .str WIFI_PASS⟩ ] },
    { heading := "MQTT",
      defines := [ ⟨"MQTT_BROKER", .str MQTT_BROKER⟩,
                   ⟨"MQTT_PORT", .int MQTT_PORT⟩ ] },
    { heading := "Topics",
      defines := [ ⟨"MQTT_LIGHT_CMD", .str MQTT_LIGHT_CMD⟩,
                   ⟨"MQTT_FAN_CMD", .str MQTT_FAN_CMD⟩,
                   ⟨"MQTT_ALARM_CMD", .str MQTT_ALARM_CMD⟩,
                   ⟨"MQTT_LIGHT_STATE", .str MQTT_LIGHT_STATE⟩,
                   ⟨"MQTT_FAN_STATE", .str MQTT_FAN_STATE⟩,
                   ⟨"MQTT_ALARM_STATE", .str MQTT_ALARM_STATE⟩,
                   ⟨"MQTT_LIGHT_MODE", .str MQTT_LIGHT_MODE⟩,
                   ⟨"MQTT_FAN_MODE", .str MQTT_FAN_MODE⟩,
                   ⟨"MQTT_ALARM_MODE", .str MQTT_ALARM_MODE⟩,
                   ⟨"MQTT_TELEMETRY", .str MQTT_TELEMETRY⟩ ] } ]

/-- Every `#define` of the header, in file order. -/
def allDefines (h : List HeaderSection) : List Define :=
  h.flatMap fun s => s.defines

/-- The `#define` lines under the `// Topics` comment. -/
def topicDefines (h : List HeaderSection) : List Define :=
  (h.filter fun s => s.heading = "Topics").flatMap fun s => s.defines

/-- The `#define` lines outside the `// Topics` section. -/
def otherDefines (h : List HeaderSection) : List Define :=
  (h.filter fun s => ¬ s.heading = "Topics").flatMap fun s => s.defines

/-- What the preprocessor substitutes for `name`: the first definition of
that name in the header, if any. -/
def lookupDefine (h : List HeaderSection) (name : String) : Option MacroValue :=
  ((allDefines h).find? fun d => d.name = name).map fun d => d.value

/-- The characters of a macro's value when it is a string literal; an
integer literal has none. -/
def MacroValue.chars : MacroValue → List Char
  | .str s => s.data
  | .int _ => []

/-- The ten topic strings of the header, in file order. -/
def allTopics : List String :=
  [ MQTT_LIGHT_CMD, MQTT_FAN_CMD, MQTT_ALARM_CMD,
    MQTT_LIGHT_STATE, MQTT_FAN_STATE, MQTT_ALARM_STATE,
    MQTT_LIGHT_MODE, MQTT_FAN_MODE, MQTT_ALARM_MODE,
    MQTT_TELEMETRY ]

/-- The topic column of the specification's topic table (section 6), row by
row: light/fan/alarm command, light/fan/alarm state, light/fan/alarm mode,
telemetry.  Written from the specification, to be compared with the
header. -/
def specTopicTable : List (String × String) :=
  [ ("Light command", "home/room1/light/cmd"),
    ("Fan command", "home/room1/fan/cmd"),
    ("Alarm command", "home/room1/alarm/cmd"),
    ("Light state", "home/room1/light/state"),
    ("Fan state", "home/room1/fan/state"),
    ("Alarm state", "home/room1/alarm/state"),
    ("Light mode", "home/room1/light/mode"),
    ("Fan mode", "home/room1/fan/mode"),
    ("Alarm mode", "home/room1/alarm/mode"),
    ("Telemetry", "home/room1/telemetry") ]


/-! ### Channels and their topics -/

/-- The three controllable outputs the header names topics for. -/
inductive ChannelId where
  | LIGHT
  | FAN
  | ALARM
  deriving DecidableEq, Repr, Fintype

/-- The three kinds of per-channel topic: the suffixes `_CMD`, `_STATE` and
`_MODE` of the macro names. -/
inductive TopicKind where
  | CMD
  | STATE
  | MODE
  deriving DecidableEq, Repr, Fintype

/-- The command topic of a channel: the `MQTT_<channel>_CMD` macro. -/
def command_topic : ChannelId → String
  | .LIGHT => MQTT_LIGHT_CMD
  | .FAN => MQTT_FAN_CMD
  | .ALARM => MQTT_ALARM_CMD

/-- The state topic of a channel: the `MQTT_<channel>_STATE` macro. -/
def state_topic : ChannelId → String
  | .LIGHT => MQTT_LIGHT_STATE
  | .FAN => MQTT_FAN_STATE
  | .ALARM => MQTT_ALARM_STATE

/-- The mode topic of a channel: the `MQTT_<channel>_MODE` macro. -/
def mode_topic : ChannelId → String
  | .LIGHT => MQTT_LIGHT_MODE
  | .FAN => MQTT_FAN_MODE
  | .ALARM => MQTT_ALARM_MODE

/-- The topic of a channel for a kind, as the header's literals give it. -/
def topicOf (c : ChannelId) : TopicKind → String
  | .CMD => command_topic c
  | .STATE => state_topic c
  | .MODE => mode_topic c

/-- The three command topics, in header order. -/
def commandTopics : List String :=
  [MQTT_LIGHT_CMD, MQTT_FAN_CMD, MQTT_ALARM_CMD]

/-- The device name of a channel as it appears inside the topic strings. -/
def deviceName : ChannelId → String
  | .LIGHT => "light"
  | .FAN => "fan"
  | .ALARM => "alarm"

/-- The name of a kind as it appears at the end of the topic strings. -/
def kindName : TopicKind → String
  | .CMD => "cmd"
  | .STATE => "state"
  | .MODE => "mode"

/-- Upper-casing of an ASCII string, character by character. -/
def upper (s : String) : String :=
  ⟨s.data.map Char.toUpper⟩

/-- The macro name `MQTT_<D>_<K>` for a device name and a kind name. -/
def macroNameOf (d k : String) : String :=
  "MQTT_" ++ upper d ++ "_" ++ upper k

/-- The topic the specification's design note would generate for a device
name and a kind name: `home/room1/<d>/<k>`.  Written from the
specification, to be compared with the header's literals. -/
def generatedTopic (d k : String) : String :=
  "home/room1/" ++ d ++ "/" ++ k

/-- The generated command/state/mode triple of a channel. -/
def generatedTriple (c : ChannelId) : String × String × String :=
  (generatedTopic (deviceName c) (kindName .CMD),
   generatedTopic (deviceName c) (kindName .STATE),
   generatedTopic (deviceName c) (kindName .MODE))

/-! ### Well-formed topic names -/

/-- The characters the header's topics are written in: lower-case ASCII
letters, digits and the level separator. -/
def isTopicChar (c : Char) : Bool :=
  c.isLower || c.isDigit || c == '/'

/-- The levels of a topic: the runs of characters between `/` separators. -/
def topicLevels : List Char → List (List Char)
  | [] => [[]]
  | c :: cs =>
    if c = '/' then [] :: topicLevels cs
    else
      match topicLevels cs with
      | [] => [[c]]
      | l :: ls => (c :: l) :: ls

/-- A topic name usable for publish and subscribe alike, under the
`home/room1/` root: non-empty, rooted, free of the wildcards `+` and `#`,
without an empty level, and made of lower-case letters, digits and `/`. -/
def WellFormedTopic (t : String) : Prop :=
  t ≠ "" ∧
  "home/room1/".data <+: t.data ∧
  '+' ∉ t.data ∧ '#' ∉ t.data ∧
  [] ∉ topicLevels t.data ∧
  t.data.head? ≠ some '/' ∧ t.data.getLast? ≠ some '/' ∧
  ¬ ['/', '/'] <:+: t.data ∧
  ∀ c ∈ t.data, isTopicChar c = true

instance (t : String) : Decidable (WellFormedTopic t) := by
  unfold WellFormedTopic
  infer_instance

/-! ## Part 2: the device controller

The header holds no logic.  The controller that subscribes to the command
topics and publishes to the state, mode and telemetry topics is described
by the specification (sections 3 to 5); the definitions below follow those
words.  Effects on the MQTT client are recorded as the list of calls made,
in order. -/

/-- Modelled from the spec: the mode of a channel, the enum
`{MANUAL, AUTO}` of section 3 (the controller's type declarations are not
part of the header). -/
inductive Mode where
  | MANUAL
  | AUTO
  deriving DecidableEq, Repr, Fintype

/-- Modelled from the spec: the mutable part of a Channel (section 3), its
on/off `state` and its `mode`.  The `id` is the position in the controller
and the three topics are the fixed functions `command_topic`, `state_topic`
and `mode_topic` of the id, immutable as section 3 requires. -/
structure Channel where
  state : Bool
  mode : Mode
  deriving DecidableEq, Repr

/-- Modelled from the spec: the controller's in-memory state, one Channel
per output, created once and never added to or removed from. -/
structure Controller where
  light : Channel
  fan : Channel
  alarm : Channel
  deriving DecidableEq, Repr

/-- The channel of a controller with the given id. -/
def Controller.channel (s : Controller) : ChannelId → Channel
  | .LIGHT => s.light
  | .FAN => s.fan
  | .ALARM => s.alarm

/-- The controller with the channel of the given id replaced. -/
def Controller.setChannel (s : Controller) (c : ChannelId) (ch : Channel) : Controller :=
  match c with
  | .LIGHT => { s with light := ch }
  | .FAN => { s with fan := ch }
  | .ALARM => { s with alarm := ch }

/-- A call made on the MQTT client. -/
inductive ClientCall where
  | subscribe (topic : String)
  | publish (topic : String) (payload : String) (retained : Bool)
  deriving DecidableEq, Repr

/-- The payloads published to `topic` among a list of client calls, in
order, retained or not. -/
def publishesTo (topic : String) : List ClientCall → List String
  | [] => []
  | .publish t p _ :: rest =>
    if t = topic then p :: publishesTo topic rest else publishesTo topic rest
  | .subscribe _ :: rest => publishesTo topic rest

/-- The payloads of the retained publishes to `topic` among a list of
client calls, in order. -/
def retainedPublishesTo (topic : String) : List ClientCall → List String
  | [] => []
  | .publish t p r :: rest =>
    if t = topic ∧ r = true then p :: retainedPublishesTo topic rest
    else retainedPublishesTo topic rest
  | .subscribe _ :: rest => retainedPublishesTo topic rest

/-- The topics subscribed to among a list of client calls, in order. -/
def subscriptions : List ClientCall → List String
  | [] => []
  | .subscribe t :: rest => t :: subscriptions rest
  | .publish _ _ _ :: rest => subscriptions rest

/-- The publish calls among a list of client calls. -/
def publishCalls (calls : List ClientCall) : List ClientCall :=
  calls.filter fun
    | .publish _ _ _ => true
    | .subscribe _ => false

/-- Whether a client call is a retained publish. -/
def ClientCall.isRetainedPublish : ClientCall → Bool
  | .publish _ _ r => r
  | .subscribe _ => false

/-- A recognised command: a new on/off state or a new mode. -/
inductive Command where
  | setState (value : Bool)
  | setMode (m : Mode)
  deriving DecidableEq, Repr

/-- The payload text of an on/off state. -/
def stateText : Bool → String
  | true => "ON"
  | false => "OFF"

/-- The payload text of a mode. -/
def modeText : Mode → String
  | .MANUAL => "MANUAL"
  | .AUTO => "AUTO"

/-- The recognised payloads named by the specification. -/
def validPayloads : List String :=
  ["ON", "OFF", "MANUAL", "AUTO"]

/-- Modelled from the spec: the channel lookup of `on_command` (section
4.1), whose code is not in the header: the Channel whose command topic
matches `topic`, if any, searched in the order LIGHT, FAN, ALARM. -/
def findChannel (topic : String) : Option ChannelId :=
  [ChannelId.LIGHT, ChannelId.FAN, ChannelId.ALARM].find? fun c => command_topic c = topic

/-- Modelled from the spec: payload recognition of `on_command` (section
4.1): `"ON"`/`"OFF"` set the state, `"MANUAL"`/`"AUTO"` set the mode, any
other payload is not recognised. -/
def parsePayload (payload : String) : Option Command :=
  if payload = "ON" then some (.setState true)
  else if payload = "OFF" then some (.setState false)
  else if payload = "MANUAL" then some (.setMode .MANUAL)
  else if payload = "AUTO" then some (.setMode .AUTO)
  else none

/-- Modelled from the spec: `on_command(topic, payload)` of section 4.1,
whose code is not in the header.  It looks up the Channel whose command
topic matches; an unknown topic or an unrecognised payload changes nothing
and publishes nothing (the log line is not an MQTT effect); otherwise it
mutates the channel's state or mode and at once publishes the new value to
the channel's state or mode topic.  The specification asks for a retained
publish only in `on_connect`, so this publish is an ordinary one. -/
def on_command (s : Controller) (topic payload : String) : Controller × List ClientCall :=
  match findChannel topic with
  | none => (s, [])
  | some c =>
    match parsePayload payload with
    | none => (s, [])
    | some (.setState b) =>
      (s.setChannel c { s.channel c with state := b },
       [.publish (state_topic c) (stateText b) false])
    | some (.setMode m) =>
      (s.setChannel c { s.channel c with mode := m },
       [.publish (mode_topic c) (modeText m) false])

/-- Modelled from the spec: `on_connect()` of section 4.1, whose code is not
in the header.  It subscribes to the three command topics, then publishes,
retained, the current state and the current mode of every channel; the
controller state is not touched. -/
def on_connect (s : Controller) : Controller × List ClientCall :=
  (s,
   [ChannelId.LIGHT, ChannelId.FAN, ChannelId.ALARM].map (fun c => .subscribe (command_topic c)) ++
   [ChannelId.LIGHT, ChannelId.FAN, ChannelId.ALARM].flatMap (fun c =>
     [ .publish (state_topic c) (stateText (s.channel c).state) true,
       .publish (mode_topic c) (modeText (s.channel c).mode) true ]))

/-- A controller state used in the worked instances: light on and manual,
fan off and automatic, alarm off and manual. -/
def sampleController : Controller :=
  { light := ⟨true, .MANUAL⟩, fan := ⟨false, .AUTO⟩, alarm := ⟨false, .MANUAL⟩ }

/-! ### The controller loop and the telemetry timer -/

/-- Modelled from the spec: what one iteration of the loop of section 5
services, the loop's code not being in the header: the clock reading, the
MQTT messages (topic, payload) that arrived, and the sensor readings as
text. -/
structure LoopInput where
  now : Nat
  messages : List (String × String)
  readings : String
  deriving DecidableEq, Repr

/-- Modelled from the spec: the state carried by the loop of section 5, the
loop's code not being in the header: the controller and the clock reading
of the last telemetry publish (the clock reading at start-up before any). -/
structure LoopState where
  ctrl : Controller
  last_telemetry : Nat
  deriving DecidableEq, Repr

/-- Modelled from the spec: `publish_telemetry()` of section 4.1, whose code
is not in the header: a single message to the telemetry topic.  The wording
of the message is not specified, so the formatter `snapshot` of channel
states and readings is a parameter. -/
def publish_telemetry (snapshot : Controller → String → String) (s : Controller)
    (readings : String) : List ClientCall :=
  [.publish MQTT_TELEMETRY (snapshot s readings) false]

/-- Modelled from the spec: command dispatch of one iteration (section 5),
whose code is not in the header: every received message goes through
`on_command`, in arrival order, each mutation followed by its publish
before the next message is handled. -/
def dispatch (s : Controller) : List (String × String) → Controller × List ClientCall
  | [] => (s, [])
  | (topic, payload) :: rest =>
    ((dispatch (on_command s topic payload).1 rest).1,
     (on_command s topic payload).2 ++ (dispatch (on_command s topic payload).1 rest).2)

/-- Modelled from the spec: one iteration of the single-threaded loop of
section 5, whose code is not in the header: command dispatch, then the
non-blocking check of the telemetry timer.  Telemetry is published when at
least `interval` has elapsed on the clock since the last telemetry publish,
and the timer restarts from the current reading. -/
def loop_iteration (interval : Nat) (snapshot : Controller → String → String)
    (st : LoopState) (i : LoopInput) : LoopState × List ClientCall :=
  if interval ≤ i.now - st.last_telemetry then
    (⟨(dispatch st.ctrl i.messages).1, i.now⟩,
     (dispatch st.ctrl i.messages).2 ++
       publish_telemetry snapshot (dispatch st.ctrl i.messages).1 i.readings)
  else
    (⟨(dispatch st.ctrl i.messages).1, st.last_telemetry⟩, (dispatch st.ctrl i.messages).2)

/-- The loop state after a run over the given iterations. -/
def runState (interval : Nat) (snapshot : Controller → String → String) :
    LoopState → List LoopInput → LoopState
  | st, [] => st
  | st, i :: rest => runState interval snapshot (loop_iteration interval snapshot st i).1 rest

/-- The trace of a run: for every iteration its clock reading and the
client calls it made. -/
def run (interval : Nat) (snapshot : Controller → String → String) :
    LoopState → List LoopInput → List (Nat × List ClientCall)
  | _, [] => []
  | st, i :: rest =>
    (i.now, (loop_iteration interval snapshot st i).2) ::
      run interval snapshot (loop_iteration interval snapshot st i).1 rest

/-- The clock readings of the telemetry publishes of a trace, one entry per
publish to the telemetry topic, in order. -/
def telemetryTimes : List (Nat × List ClientCall) → List Nat
  | [] => []
  | (t, out) :: rest =>
    (publishesTo MQTT_TELEMETRY out).map (fun _ => t) ++ telemetryTimes rest

/-- A formatter used in the worked instances: readings, then the light,
fan and alarm states. -/
def sampleSnapshot (s : Controller) (readings : String) : String :=
  readings ++ " " ++ stateText s.light.state ++ " " ++ stateText s.fan.state ++ " " ++
    stateText s.alarm.state

/-- A run used in the worked instances, with a 30-second interval in
milliseconds: iterations at 10 s, 30 s (with a light command), 45 s and
61 s. -/
def sampleInputs : List LoopInput :=
  [ ⟨10000, [], "t=21"⟩,
    ⟨30000, [("home/room1/light/cmd", "OFF")], "t=22"⟩,
    ⟨45000, [], "t=22"⟩,
    ⟨61000, [], "t=23"⟩ ]

/-! ## Part 3: theorems -/

/-- C1: each of the ten topic macros of `config.example.h` equals, character
for character, the topic the specification's table gives for its purpose,
and the header defines no other topic: its `// Topics` section is exactly
these ten definitions, and no definition outside it holds a `/`-separated
string. -/
theorem topic_macros_match_table :
    (MQTT_LIGHT_CMD = "home/room1/light/cmd" ∧
     MQTT_FAN_CMD = "home/room1/fan/cmd" ∧
     MQTT_ALARM_CMD = "home/room1/alarm/cmd" ∧
     MQTT_LIGHT_STATE = "home/room1/light/state" ∧
     MQTT_FAN_STATE = "home/room1/fan/state" ∧
     MQTT_ALARM_STATE = "home/room1/alarm/state" ∧
     MQTT_LIGHT_MODE = "home/room1/light/mode" ∧
     MQTT_FAN_MODE = "home/room1/fan/mode" ∧
     MQTT_ALARM_MODE = "home/room1/alarm/mode" ∧
     MQTT_TELEMETRY = "home/room1/telemetry") ∧
    allTopics = specTopicTable.map Prod.snd ∧
    topicDefines config_example_h =
      [ ⟨"MQTT_LIGHT_CMD", .str "home/room1/light/cmd"⟩,
        ⟨"MQTT_FAN_CMD", .str "home/room1/fan/cmd"⟩,
        ⟨"MQTT_ALARM_CMD", .str "home/room1/alarm/cmd"⟩,
        ⟨"MQTT_LIGHT_STATE", .str "home/room1/light/state"⟩,
        ⟨"MQTT_FAN_STATE", .str "home/room1/fan/state"⟩,
        ⟨"MQTT_ALARM_STATE", .str "home/room1/alarm/state"⟩,
        ⟨"MQTT_LIGHT_MODE", .str "home/room1/light/mode"⟩,
        ⟨"MQTT_FAN_MODE", .str "home/room1/fan/mode"⟩,
        ⟨"MQTT_ALARM_MODE", .str "home/room1/alarm/mode"⟩,
        ⟨"MQTT_TELEMETRY", .str "home/room1/telemetry"⟩ ] ∧
    (otherDefines config_example_h).map (fun d => d.name) =
      ["WIFI_SSID", "WIFI_PASS", "MQTT_BROKER", "MQTT_PORT"] ∧
    (∀ d ∈ otherDefines config_example_h, '/' ∉ d.value.chars) := by
  refine ⟨⟨rfl, rfl, rfl, rfl, rfl, rfl, rfl, rfl, rfl, rfl⟩, rfl, ?_, ?_, ?_⟩
  · decide
  · decide
  · decide

/-- C10: `MQTT_PORT` is the integer 1883, lies in the TCP port range
1..65535 and is unchanged by conversion to an unsigned 16-bit port;
`MQTT_BROKER`, `WIFI_SSID` and `WIFI_PASS` are non-empty strings. -/
theorem mqtt_port_and_credentials_valid :
    MQTT_PORT = 1883 ∧ 1 ≤ MQTT_PORT ∧ MQTT_PORT ≤ 65535 ∧
    MQTT_PORT % 2 ^ 16 = MQTT_PORT ∧ MQTT_PORT % 2 ^ 16 = 1883 ∧
    lookupDefine config_example_h "MQTT_PORT" = some (.int 1883) ∧
    MQTT_BROKER ≠ "" ∧ WIFI_SSID ≠ "" ∧ WIFI_PASS ≠ "" ∧
    0 < MQTT_BROKER.length ∧ 0 < WIFI_SSID.length ∧ 0 < WIFI_PASS.length := by
  refine ⟨rfl, by decide, by decide, by decide, by decide, by decide,
    by decide, by decide, by decide, by decide, by decide, by decide⟩

/-- C7: the header's scattered literals agree with a table generated from
device and kind names: for every channel and kind the macro
`MQTT_<D>_<K>` expands to `"home/room1/" ++ d ++ "/" ++ k`, the triple of
every channel is the generated one, and `MQTT_TELEMETRY` is
`"home/room1/" ++ "telemetry"`. -/
theorem topics_agree_with_generated_table :
    (∀ (c : ChannelId) (k : TopicKind),
      lookupDefine config_example_h (macroNameOf (deviceName c) (kindName k)) =
        some (.str (generatedTopic (deviceName c) (kindName k))) ∧
      topicOf c k = "home/room1/" ++ deviceName c ++ "/" ++ kindName k) ∧
    (∀ c : ChannelId,
      (command_topic c, state_topic c, mode_topic c) = generatedTriple c) ∧
    [deviceName .LIGHT, deviceName .FAN, deviceName .ALARM] = ["light", "fan", "alarm"] ∧
    [kindName .CMD, kindName .STATE, kindName .MODE] = ["cmd", "state", "mode"] ∧
    MQTT_TELEMETRY = "home/room1/" ++ "telemetry" ∧
    lookupDefine config_example_h "MQTT_TELEMETRY" =
      some (.str ("home/room1/" ++ "telemetry")) := by
  refine ⟨?_, ?_, rfl, rfl, by decide, by decide⟩
  · intro c k
    cases c <;> cases k <;> exact ⟨by decide, by decide⟩
  · intro c
    cases c <;> decide

/-- C8: the ten configured topics are pairwise distinct and none is a
proper prefix of another; hence the map from (channel, kind) to topic is
injective, telemetry shares no topic with a channel, and a received topic is
the command topic of at most one channel. -/
theorem topics_distinct_and_channel_unique :
    allTopics.Nodup ∧
    allTopics.Pairwise (fun s t => ¬ s.data <+: t.data ∧ ¬ t.data <+: s.data) ∧
    Function.Injective (fun p : ChannelId × TopicKind => topicOf p.1 p.2) ∧
    (∀ (c : ChannelId) (k : TopicKind), topicOf c k ≠ MQTT_TELEMETRY) ∧
    (∀ (topic : String) (c₁ c₂ : ChannelId),
      command_topic c₁ = topic ∧ command_topic c₂ = topic → c₁ = c₂) := by
  have hinj : Function.Injective (fun p : ChannelId × TopicKind => topicOf p.1 p.2) := by
    rintro ⟨c₁, k₁⟩ ⟨c₂, k₂⟩ h
    cases c₁ <;> cases k₁ <;> cases c₂ <;> cases k₂ <;>
      first
        | rfl
        | exact absurd h (by decide)
  refine ⟨by decide, by decide, hinj, ?_, ?_⟩
  · intro c k
    cases c <;> cases k <;> decide
  · rintro topic c₁ c₂ ⟨h₁, h₂⟩
    have := @hinj (c₁, .CMD) (c₂, .CMD) (by simp only [topicOf]; rw [h₁, h₂])
    exact congrArg Prod.fst this

/-- C9: every one of the ten configured topics is a well-formed MQTT topic
name: non-empty, under `home/room1/`, without `+` or `#`, without an empty
level (no leading, trailing or doubled `/`), and written in lower-case
ASCII letters, digits and `/` only. -/
theorem topics_well_formed :
    allTopics.length = 10 ∧
    allTopics.Forall WellFormedTopic ∧
    (∀ (c : ChannelId) (k : TopicKind), WellFormedTopic (topicOf c k)) ∧
    WellFormedTopic MQTT_TELEMETRY := by
  refine ⟨rfl, by decide, ?_, by decide⟩
  intro c k
  cases c <;> cases k <;> decide

/-! ### Helper lemmas on the controller model -/

theorem findChannel_command_topic (c : ChannelId) :
    findChannel (command_topic c) = some c := by
  cases c <;> decide

theorem findChannel_eq_none {topic : String} (h : topic ∉ commandTopics) :
    findChannel topic = none := by
  unfold findChannel
  rw [List.find?_eq_none]
  intro c _
  have hc : command_topic c ∈ commandTopics := by cases c <;> decide
  have : command_topic c ≠ topic := fun e => h (e ▸ hc)
  simpa using this

theorem parsePayload_eq_none {payload : String} (h : payload ∉ validPayloads) :
    parsePayload payload = none := by
  simp only [validPayloads, List.mem_cons, List.mem_singleton, List.not_mem_nil,
    or_false, not_or] at h
  obtain ⟨h₁, h₂, h₃, h₄⟩ := h
  simp [parsePayload, h₁, h₂, h₃, h₄]

theorem parsePayload_stateText (b : Bool) :
    parsePayload (stateText b) = some (.setState b) := by
  cases b <;> decide

theorem parsePayload_modeText (m : Mode) :
    parsePayload (modeText m) = some (.setMode m) := by
  cases m <;> decide

theorem channel_setChannel_same (s : Controller) (c : ChannelId) (ch : Channel) :
    (s.setChannel c ch).channel c = ch := by
  cases c <;> rfl

theorem channel_setChannel_other (s : Controller) {c d : ChannelId} (ch : Channel)
    (h : d ≠ c) : (s.setChannel c ch).channel d = s.channel d := by
  cases c <;> cases d <;> first | rfl | exact absurd rfl h

/-- C2: for every channel and every controller state, `on_command` on the
channel's command topic with a valid payload sets the channel's state (for
`"ON"`/`"OFF"`) or mode (for `"MANUAL"`/`"AUTO"`) to the new value, leaves
everything else as it was, and makes exactly one client call: one publish
of the new value to the channel's state (or mode) topic.  In particular
`"ON"` on `home/room1/light/cmd` publishes `"ON"` to
`home/room1/light/state`. -/
theorem on_command_valid_publishes_once (s : Controller) (c : ChannelId) :
    (∀ b : Bool,
      ((on_command s (command_topic c) (stateText b)).1.channel c).state = b ∧
      ((on_command s (command_topic c) (stateText b)).1.channel c).mode = (s.channel c).mode ∧
      (∀ d, d ≠ c → (on_command s (command_topic c) (stateText b)).1.channel d = s.channel d) ∧
      (on_command s (command_topic c) (stateText b)).2.length = 1 ∧
      publishesTo (state_topic c) (on_command s (command_topic c) (stateText b)).2 =
        [stateText b]) ∧
    (∀ m : Mode,
      ((on_command s (command_topic c) (modeText m)).1.channel c).mode = m ∧
      ((on_command s (command_topic c) (modeText m)).1.channel c).state = (s.channel c).state ∧
      (∀ d, d ≠ c → (on_command s (command_topic c) (modeText m)).1.channel d = s.channel d) ∧
      (on_command s (command_topic c) (modeText m)).2.length = 1 ∧
      publishesTo (mode_topic c) (on_command s (command_topic c) (modeText m)).2 =
        [modeText m]) ∧
    [stateText true, stateText false, modeText .MANUAL, modeText .AUTO] = validPayloads ∧
    ((on_command s "home/room1/light/cmd" "ON").1.light.state = true ∧
     publishesTo "home/room1/light/state" (on_command s "home/room1/light/cmd" "ON").2 =
       ["ON"] ∧
     publishCalls (on_command s "home/room1/light/cmd" "ON").2 =
       (on_command s "home/room1/light/cmd" "ON").2 ∧
     (on_command s "home/room1/light/cmd" "ON").2.length = 1) := by
  refine ⟨?_, ?_, rfl, ?_⟩
  · intro b
    simp only [on_command, findChannel_command_topic, parsePayload_stateText,
      channel_setChannel_same, List.length_singleton, publishesTo, if_true, true_and]
    exact ⟨fun d hd => channel_setChannel_other s _ hd, trivial⟩
  · intro m
    simp only [on_command, findChannel_command_topic, parsePayload_modeText,
      channel_setChannel_same, List.length_singleton, publishesTo, if_true, true_and]
    exact ⟨fun d hd => channel_setChannel_other s _ hd, trivial⟩
  · have h₁ : findChannel "home/room1/light/cmd" = some .LIGHT := by decide
    have h₂ : parsePayload "ON" = some (.setState true) := by decide
    simp only [on_command, h₁, h₂]
    refine ⟨rfl, ?_, ?_, rfl⟩
    · simp [publishesTo, state_topic, MQTT_LIGHT_STATE, stateText]
    · simp [publishCalls]

/-- C3: for every channel, every controller state and every payload that is
not one of `"ON"`, `"OFF"`, `"MANUAL"`, `"AUTO"`, `on_command` on the
channel's command topic returns the controller unchanged (the state and
mode of every channel) and makes no client call, so nothing is published
to any topic. -/
theorem on_command_invalid_payload_ignored (s : Controller) (c : ChannelId)
    (payload : String) (h : payload ∉ validPayloads) :
    on_command s (command_topic c) payload = (s, []) ∧
    (∀ d, (on_command s (command_topic c) payload).1.channel d = s.channel d) ∧
    (∀ topic, publishesTo topic (on_command s (command_topic c) payload).2 = []) := by
  have h₀ : on_command s (command_topic c) payload = (s, []) := by
    simp only [on_command, findChannel_command_topic, parsePayload_eq_none h]
  rw [h₀]
  exact ⟨rfl, fun _ => rfl, fun _ => rfl⟩

/-- Witness for C3: `"BOGUS"` sent to `home/room1/fan/cmd` changes nothing
and yields no publish to `home/room1/fan/state`. -/
theorem on_command_invalid_payload_ignored_witness :
    "BOGUS" ∉ validPayloads ∧
    on_command sampleController "home/room1/fan/cmd" "BOGUS" = (sampleController, []) ∧
    publishesTo "home/room1/fan/state"
      (on_command sampleController "home/room1/fan/cmd" "BOGUS").2 = [] :=
  ⟨by decide,
   (on_command_invalid_payload_ignored sampleController .FAN "BOGUS" (by decide)).1,
   (on_command_invalid_payload_ignored sampleController .FAN "BOGUS" (by decide)).2.2
     "home/room1/fan/state"⟩

/-- C4: for every topic that is not one of the three command topics and
every payload, `on_command` is a no-op: the controller is returned
unchanged and no client call is made. -/
theorem on_command_unknown_topic_ignored (s : Controller) (topic payload : String)
    (h : topic ∉ commandTopics) :
    on_command s topic payload = (s, []) ∧
    (∀ d, (on_command s topic payload).1.channel d = s.channel d) ∧
    (∀ t, publishesTo t (on_command s topic payload).2 = []) := by
  have h₀ : on_command s topic payload = (s, []) := by
    simp only [on_command, findChannel_eq_none h]
  rw [h₀]
  exact ⟨rfl, fun _ => rfl, fun _ => rfl⟩

/-- Witness for C4: a valid payload on the light state topic, which is not
a command topic, is ignored. -/
theorem on_command_unknown_topic_ignored_witness :
    "home/room1/light/state" ∉ commandTopics ∧
    on_command sampleController "home/room1/light/state" "OFF" = (sampleController, []) :=
  ⟨by decide,
   (on_command_unknown_topic_ignored sampleController "home/room1/light/state" "OFF"
     (by decide)).1⟩

/-- C5: for every controller state, `on_connect` leaves the controller
unchanged, subscribes to exactly the three command topics, and makes six
publishes, all retained: for every channel exactly one to its state topic
and exactly one to its mode topic, each carrying the channel's current
value. -/
theorem on_connect_snapshot (s : Controller) :
    (on_connect s).1 = s ∧
    subscriptions (on_connect s).2 = commandTopics ∧
    subscriptions (on_connect s).2 =
      ["home/room1/light/cmd", "home/room1/fan/cmd", "home/room1/alarm/cmd"] ∧
    (publishCalls (on_connect s).2).length = 6 ∧
    (on_connect s).2.length = 9 ∧
    (publishCalls (on_connect s).2).all ClientCall.isRetainedPublish = true ∧
    (∀ c : ChannelId,
      publishesTo (state_topic c) (on_connect s).2 = [stateText (s.channel c).state] ∧
      retainedPublishesTo (state_topic c) (on_connect s).2 = [stateText (s.channel c).state] ∧
      publishesTo (mode_topic c) (on_connect s).2 = [modeText (s.channel c).mode] ∧
      retainedPublishesTo (mode_topic c) (on_connect s).2 = [modeText (s.channel c).mode]) := by
  refine ⟨rfl, rfl, rfl, rfl, rfl, rfl, ?_⟩
  intro c
  cases c <;>
    simp [on_connect, publishesTo, retainedPublishesTo, state_topic, mode_topic, command_topic,
      MQTT_LIGHT_STATE, MQTT_FAN_STATE, MQTT_ALARM_STATE, MQTT_LIGHT_MODE, MQTT_FAN_MODE,
      MQTT_ALARM_MODE]

/-! ### Helper lemmas on the loop model -/

theorem publishesTo_append (topic : String) (xs ys : List ClientCall) :
    publishesTo topic (xs ++ ys) = publishesTo topic xs ++ publishesTo topic ys := by
  induction xs with
  | nil => rfl
  | cons x xs ih =>
    cases x with
    | subscribe t => simpa [publishesTo] using ih
    | publish t p r =>
      by_cases h : t = topic <;> simp [publishesTo, h, ih]

theorem state_topic_ne_telemetry (c : ChannelId) : state_topic c ≠ MQTT_TELEMETRY := by
  cases c <;> decide

theorem mode_topic_ne_telemetry (c : ChannelId) : mode_topic c ≠ MQTT_TELEMETRY := by
  cases c <;> decide

theorem on_command_no_telemetry (s : Controller) (topic payload : String) :
    publishesTo MQTT_TELEMETRY (on_command s topic payload).2 = [] := by
  unfold on_command
  cases findChannel topic with
  | none => rfl
  | some c =>
    cases parsePayload payload with
    | none => rfl
    | some cmd =>
      cases cmd with
      | setState b => simp [publishesTo, state_topic_ne_telemetry]
      | setMode m => simp [publishesTo, mode_topic_ne_telemetry]

theorem dispatch_no_telemetry (s : Controller) (ms : List (String × String)) :
    publishesTo MQTT_TELEMETRY (dispatch s ms).2 = [] := by
  induction ms generalizing s with
  | nil => rfl
  | cons m ms ih =>
    obtain ⟨t, p⟩ := m
    simp [dispatch, publishesTo_append, on_command_no_telemetry, ih]

theorem loop_iteration_due (interval : Nat) (snapshot : Controller → String → String)
    (st : LoopState) (i : LoopInput) (h : interval ≤ i.now - st.last_telemetry) :
    (loop_iteration interval snapshot st i).1.last_telemetry = i.now ∧
    publishesTo MQTT_TELEMETRY (loop_iteration interval snapshot st i).2 =
      [snapshot (dispatch st.ctrl i.messages).1 i.readings] := by
  simp [loop_iteration, h, publishesTo_append, dispatch_no_telemetry, publish_telemetry,
    publishesTo]

theorem loop_iteration_not_due (interval : Nat) (snapshot : Controller → String → String)
    (st : LoopState) (i : LoopInput) (h : ¬ interval ≤ i.now - st.last_telemetry) :
    (loop_iteration interval snapshot st i).1.last_telemetry = st.last_telemetry ∧
    publishesTo MQTT_TELEMETRY (loop_iteration interval snapshot st i).2 = [] := by
  simp [loop_iteration, h, dispatch_no_telemetry]

theorem telemetryTimes_append (xs ys : List (Nat × List ClientCall)) :
    telemetryTimes (xs ++ ys) = telemetryTimes xs ++ telemetryTimes ys := by
  induction xs with
  | nil => rfl
  | cons x xs ih =>
    obtain ⟨t, out⟩ := x
    simp [telemetryTimes, ih]

theorem run_append (interval : Nat) (snapshot : Controller → String → String)
    (st : LoopState) (xs ys : List LoopInput) :
    run interval snapshot st (xs ++ ys) =
      run interval snapshot st xs ++ run interval snapshot (runState interval snapshot st xs) ys := by
  induction xs generalizing st with
  | nil => rfl
  | cons x xs ih => simp [run, runState, ih]

theorem run_telemetry_count (interval : Nat) (snapshot : Controller → String → String)
    (st : LoopState) (inputs : List LoopInput) :
    ∀ e ∈ run interval snapshot st inputs, (publishesTo MQTT_TELEMETRY e.2).length ≤ 1 := by
  induction inputs generalizing st with
  | nil => intro e he; simp [run] at he
  | cons i rest ih =>
    intro e he
    simp only [run, List.mem_cons] at he
    rcases he with rfl | he
    · by_cases h : interval ≤ i.now - st.last_telemetry
      · simp [(loop_iteration_due interval snapshot st i h).2]
      · simp [(loop_iteration_not_due interval snapshot st i h).2]
    · exact ih _ e he

theorem runState_last_telemetry (interval : Nat) (snapshot : Controller → String → String)
    (st : LoopState) (inputs : List LoopInput) :
    (runState interval snapshot st inputs).last_telemetry =
      (telemetryTimes (run interval snapshot st inputs)).getLast?.getD st.last_telemetry := by
  induction inputs generalizing st with
  | nil => rfl
  | cons i rest ih =>
    simp only [runState, run, telemetryTimes]
    rw [ih]
    by_cases h : interval ≤ i.now - st.last_telemetry
    · obtain ⟨h₁, h₂⟩ := loop_iteration_due interval snapshot st i h
      rw [h₁, h₂]
      cases hr : telemetryTimes (run interval snapshot (loop_iteration interval snapshot st i).1 rest) with
      | nil => simp
      | cons a l => simp [List.getLast?_eq_getLast _ (List.cons_ne_nil a l)]
    · obtain ⟨h₁, h₂⟩ := loop_iteration_not_due interval snapshot st i h
      rw [h₁, h₂]
      simp

theorem telemetryTimes_chain (interval : Nat) (snapshot : Controller → String → String)
    (st : LoopState) (inputs : List LoopInput)
    (hclock : (st.last_telemetry :: inputs.map (fun i => i.now)).Pairwise (fun a b => a ≤ b)) :
    List.Chain (fun a b => a + interval ≤ b) st.last_telemetry
      (telemetryTimes (run interval snapshot st inputs)) := by
  induction inputs generalizing st with
  | nil => exact List.Chain.nil
  | cons i rest ih =>
    simp only [List.map_cons, List.pairwise_cons, List.mem_cons, forall_eq_or_imp] at hclock
    obtain ⟨⟨h₀, hle⟩, hrest, hpw⟩ := hclock
    simp only [run, telemetryTimes]
    by_cases h : interval ≤ i.now - st.last_telemetry
    · obtain ⟨h₁, h₂⟩ := loop_iteration_due interval snapshot st i h
      rw [h₂]
      simp only [List.map_cons, List.map_nil, List.singleton_append]
      refine List.Chain.cons (by omega) ?_
      have := ih (loop_iteration interval snapshot st i).1
        (by rw [h₁]; exact List.pairwise_cons.mpr ⟨hrest, hpw⟩)
      rwa [h₁] at this
    · obtain ⟨h₁, h₂⟩ := loop_iteration_not_due interval snapshot st i h
      rw [h₂]
      simp only [List.map_nil, List.nil_append]
      have := ih (loop_iteration interval snapshot st i).1
        (by rw [h₁]; exact List.pairwise_cons.mpr ⟨hle, hpw⟩)
      rwa [h₁] at this

/-- C6: in every run of the controller loop whose clock readings never go
backwards, telemetry goes to `home/room1/telemetry` never more often than
the interval: every telemetry publish is at least one interval after the
previous one (the first after the timer's start), no iteration publishes
telemetry twice, and a publish occurs in the very iteration that first
sees the interval elapsed since the last publish, and in no other. -/
theorem telemetry_at_interval_never_more_often (interval : Nat)
    (snapshot : Controller → String → String) (st : LoopState) (inputs : List LoopInput)
    (hclock : (st.last_telemetry :: inputs.map (fun i => i.now)).Pairwise (fun a b => a ≤ b)) :
    MQTT_TELEMETRY = "home/room1/telemetry" ∧
    List.Chain (fun a b => a + interval ≤ b) st.last_telemetry
      (telemetryTimes (run interval snapshot st inputs)) ∧
    (∀ e ∈ run interval snapshot st inputs, (publishesTo MQTT_TELEMETRY e.2).length ≤ 1) ∧
    (∀ (pre post : List LoopInput) (i : LoopInput), inputs = pre ++ i :: post →
      (interval ≤ i.now -
          (telemetryTimes (run interval snapshot st pre)).getLast?.getD st.last_telemetry →
        telemetryTimes (run interval snapshot st (pre ++ [i])) =
          telemetryTimes (run interval snapshot st pre) ++ [i.now]) ∧
      (¬ interval ≤ i.now -
          (telemetryTimes (run interval snapshot st pre)).getLast?.getD st.last_telemetry →
        telemetryTimes (run interval snapshot st (pre ++ [i])) =
          telemetryTimes (run interval snapshot st pre))) := by
  refine ⟨rfl, telemetryTimes_chain interval snapshot st inputs hclock,
    run_telemetry_count interval snapshot st inputs, ?_⟩
  intro pre post i _
  rw [← runState_last_telemetry, run_append, telemetryTimes_append]
  constructor
  · intro h
    simp [run, telemetryTimes, (loop_iteration_due interval snapshot _ i h).2]
  · intro h
    simp [run, telemetryTimes, (loop_iteration_not_due interval snapshot _ i h).2]

/-- Witness for C6: with a 30 s interval and iterations at 10 s, 30 s, 45 s
and 61 s, telemetry is published at 30 s and at 61 s only. -/
theorem telemetry_at_interval_never_more_often_witness :
    ((0 :: sampleInputs.map (fun i => i.now)).Pairwise (fun a b => a ≤ b)) ∧
    telemetryTimes (run 30000 sampleSnapshot ⟨sampleController, 0⟩ sampleInputs) =
      [30000, 61000] ∧
    List.Chain (fun a b => a + 30000 ≤ b) 0
      (telemetryTimes (run 30000 sampleSnapshot ⟨sampleController, 0⟩ sampleInputs)) :=
  ⟨by decide, by decide,
   (telemetry_at_interval_never_more_often 30000 sampleSnapshot ⟨sampleController, 0⟩
     sampleInputs (by decide)).2.1⟩

end Esp32HomeAuto
